import Mathlib

/-!
Verification of the MediaPlayer controller (MediaPlayer/src/MediaPlayer.cpp).

The development is a shallow embedding of the controller's dispatcher-thread
state machine.  All mutable controller state (the playback flags, the current
source id, the offset manager, the observer pointer, the volume element's
value) lives in `PlayerState`.  The GStreamer engine is external: every
engine response (the result of `gst_element_get_state`,
`gst_element_set_state`, buffering / seekable / position queries, bus
messages) is passed to the handlers as an explicit oracle argument, and every
request the controller makes of the engine is recorded in an `EOp` audit
list.  Calls into the source adapter are recorded in an `ACall` audit list.
Observer callbacks are recorded as `Event`s.  A dereference of the null
source adapter (a `shared_ptr` that has been `reset`) is modelled by the
`crashed` flag: once a handler crashes, no further behaviour is defined.

The source id counter `g_id` is a process-wide counter starting at 0; each
successful `setSource` stores `++g_id`.  The sentinel `MediaPlayer::ERROR`
and the offset sentinel `MEDIA_PLAYER_INVALID_OFFSET` come from headers that
are not part of this repository; following the spec ("a reserved value ...
numerically equal to the counter's start-of-range", "a distinguished
INVALID_OFFSET") they are modelled as `0` and `-1` milliseconds.
-/

set_option maxHeartbeats 1600000

namespace MediaPlayerModel

/-- GStreamer pipeline states (`GstState`), restricted to the values the
controller inspects.  `voidPending` is `GST_STATE_VOID_PENDING`. -/
inductive GstState where
  | null
  | ready
  | paused
  | playing
  | voidPending
  deriving DecidableEq, Repr

/-- Results of `gst_element_get_state` (`GstStateChangeReturn`). -/
inductive StateRet where
  | success
  | failure
  | async
  | noPreroll
  deriving DecidableEq, Repr

/-- The public error kinds surfaced through `onPlaybackError`. -/
inductive ErrorType where
  | unknown
  | invalidRequest
  | serviceUnavailable
  | internalServerError
  | internalDeviceError
  deriving DecidableEq, Repr

/-- Adapter (source) methods the controller invokes, recorded as an audit. -/
inductive ACall where
  | preprocess
  | handleEndOfStream
  | hasAdditionalData
  | isPlaybackRemote
  | shutdown
  deriving DecidableEq, Repr

/-- Requests the controller issues to the engine: state changes and seeks
(`gst_element_set_state`, `gst_element_seek_simple`; the seek target is in
nanoseconds). -/
inductive EOp where
  | setState (st : GstState)
  | seekTo (ns : Nat)
  deriving DecidableEq, Repr

/-- Tag value kinds delivered to the observer
(`MediaPlayerObserverInterface::TagType`). -/
inductive TagType where
  | string
  | uint
  | int
  | boolean
  | double
  deriving DecidableEq, Repr

/-- One tag delivered to the observer (`TagKeyValueType`). -/
structure TagKV where
  key : String
  value : String
  type : TagType
  deriving DecidableEq, Repr

/-- A GValue held by a tag, restricted to the shapes `collectOneTag`
distinguishes.  The `double` payload carries the already-stringified
`std::to_string` form, since only the kind and the copied string matter to
the controller.  `dateTime none` is a date-time whose
`gst_date_time_to_iso8601_string` conversion returned null. -/
inductive GVal where
  | str (v : String)
  | uint (v : Nat)
  | int (v : Int)
  | boolean (v : Bool)
  | dateTime (iso : Option String)
  | double (repr : String)
  | buffer
  | other
  deriving DecidableEq, Repr

/-- Observer callbacks, with the id they carry.  `tags` carries the delivered
vector (`none` models the `nullptr` vector produced for an empty tag list). -/
inductive Event where
  | started (id : Nat)
  | finished (id : Nat)
  | paused (id : Nat)
  | resumed (id : Nat)
  | stopped (id : Nat)
  | error (id : Nat) (ty : ErrorType)
  | underrun (id : Nat)
  | refilled (id : Nat)
  | tags (id : Nat) (entries : Option (List TagKV))
  deriving DecidableEq, Repr

/-- The dispatcher-private controller state.  `gId` is the process-wide
source id counter `g_id`; `currentId = 0` is the `ERROR` sentinel ("no
source").  `seekPoint` (milliseconds) and `seekable` are the OffsetManager.
`pipelineSet` / `volumeSet` model the non-nullness of `m_pipeline.pipeline`
and `m_pipeline.volume`; `gstVolume` is the engine volume element's `volume`
property (a `gdouble`, modelled exactly as a rational), `gstMute` its `mute`
property. -/
structure PlayerState where
  gId : Nat
  currentId : Nat
  sourceSet : Bool
  observerSet : Bool
  playbackStartedSent : Bool
  playbackFinishedSent : Bool
  isPaused : Bool
  isBufferUnderrun : Bool
  playPending : Bool
  pausePending : Bool
  resumePending : Bool
  pauseImmediately : Bool
  seekPoint : Option Nat
  seekable : Bool
  pipelineSet : Bool
  volumeSet : Bool
  gstVolume : ℚ
  gstMute : Bool
  deriving DecidableEq, Repr

/-- The state of a freshly constructed and initialized player (constructor
initializer list plus `setupPipeline`; the GStreamer volume element defaults
to 1.0). -/
def initialState : PlayerState where
  gId := 0
  currentId := 0
  sourceSet := false
  observerSet := false
  playbackStartedSent := false
  playbackFinishedSent := false
  isPaused := false
  isBufferUnderrun := false
  playPending := false
  pausePending := false
  resumePending := false
  pauseImmediately := false
  seekPoint := none
  seekable := false
  pipelineSet := true
  volumeSet := true
  gstVolume := 1
  gstMute := false

/-- The observable effect of running a handler: the post-state, the observer
events emitted (in order), the adapter methods invoked (in order), the
engine requests issued (in order), and whether the handler dereferenced the
null source adapter. -/
structure Eff where
  s : PlayerState
  evs : List Event
  calls : List ACall
  ops : List EOp
  crashed : Bool
  deriving DecidableEq, Repr

/-- An effect that only carries a state: no events, calls, ops, no crash. -/
def Eff.pure (s : PlayerState) : Eff :=
  ⟨s, [], [], [], false⟩

/-- Sequencing of effects: events, calls and ops concatenate. -/
def Eff.andThen (e : Eff) (f : PlayerState → Eff) : Eff :=
  let e2 := f e.s
  ⟨e2.s, e.evs ++ e2.evs, e.calls ++ e2.calls, e.ops ++ e2.ops, e.crashed || e2.crashed⟩

/-- The body of `tearDownTransientPipelineElements` after its initial
`sendPlaybackStopped` step: clear `m_currentId`, shut the adapter down and
reset it, stop the pipeline (state `NULL`) and drop the transient elements,
clear the OffsetManager and all playback flags. -/
def tearDownCore (s : PlayerState) : Eff where
  s := { s with
    currentId := 0
    sourceSet := false
    seekPoint := none
    seekable := false
    playPending := false
    pausePending := false
    resumePending := false
    pauseImmediately := false
    playbackStartedSent := false
    playbackFinishedSent := false
    isPaused := false
    isBufferUnderrun := false }
  evs := []
  calls := if s.sourceSet then [ACall.shutdown] else []
  ops := if s.pipelineSet then [EOp.setState GstState.null] else []
  crashed := false

/-- `MediaPlayer::sendPlaybackStopped`: emit `onPlaybackStopped(m_currentId)`
when an observer is attached and the current id is not the sentinel, then
clear the current id and run the full teardown (which, with the id already
cleared, is `tearDownCore`). -/
def sendPlaybackStoppedE (s : PlayerState) : Eff :=
  let evs := if s.observerSet = true ∧ s.currentId ≠ 0 then [Event.stopped s.currentId] else []
  let e := tearDownCore { s with currentId := 0 }
  { e with evs := evs ++ e.evs }

/-- `MediaPlayer::tearDownTransientPipelineElements`: when a source id is
current this first runs `sendPlaybackStopped` (which itself tears down), then
the rest of the body repeats the core teardown. -/
def tearDownTransientE (s : PlayerState) : Eff :=
  if s.currentId ≠ 0 then
    (sendPlaybackStoppedE s).andThen tearDownCore
  else
    tearDownCore s

/-- `MediaPlayer::sendPlaybackStarted`: edge-triggered on
`m_playbackStartedSent`; sets the flag, clears `m_playPending`, and emits
`onPlaybackStarted(m_currentId)` when an observer is attached. -/
def sendPlaybackStartedE (s : PlayerState) : Eff :=
  if s.playbackStartedSent then Eff.pure s
  else
    { s := { s with playbackStartedSent := true, playPending := false }
      evs := if s.observerSet then [Event.started s.currentId] else []
      calls := []
      ops := []
      crashed := false }

/-- `MediaPlayer::sendPlaybackFinished`: shut the adapter down and reset it,
clear `m_isPaused` and `m_playbackStartedSent`, emit
`onPlaybackFinished(m_currentId)` once (edge-triggered on
`m_playbackFinishedSent`), then clear the current id and tear down. -/
def sendPlaybackFinishedE (s : PlayerState) : Eff :=
  let calls1 := if s.sourceSet then [ACall.shutdown] else []
  let s1 := { s with sourceSet := false, isPaused := false, playbackStartedSent := false }
  let emitted :=
    if s1.playbackFinishedSent then (s1, ([] : List Event))
    else ({ s1 with playbackFinishedSent := true },
          if s1.observerSet then [Event.finished s1.currentId] else [])
  let e := tearDownTransientE { emitted.1 with currentId := 0 }
  { e with evs := emitted.2 ++ e.evs, calls := calls1 ++ e.calls }

/-- `MediaPlayer::sendPlaybackPaused`: clear `m_pausePending` and emit
`onPlaybackPaused(m_currentId)` when an observer is attached. -/
def sendPlaybackPausedE (s : PlayerState) : Eff where
  s := { s with pausePending := false }
  evs := if s.observerSet then [Event.paused s.currentId] else []
  calls := []
  ops := []
  crashed := false

/-- `MediaPlayer::sendPlaybackResumed`: clear `m_resumePending` and emit
`onPlaybackResumed(m_currentId)` when an observer is attached. -/
def sendPlaybackResumedE (s : PlayerState) : Eff where
  s := { s with resumePending := false }
  evs := if s.observerSet then [Event.resumed s.currentId] else []
  calls := []
  ops := []
  crashed := false

/-- `MediaPlayer::sendPlaybackError`: clear the four pending flags, emit
`onPlaybackError(m_currentId, type, ...)` when an observer is attached, then
clear the current id and tear down. -/
def sendPlaybackErrorE (ty : ErrorType) (s : PlayerState) : Eff :=
  let s1 := { s with
    playPending := false
    pausePending := false
    resumePending := false
    pauseImmediately := false }
  let evs := if s1.observerSet then [Event.error s1.currentId ty] else []
  let e := tearDownTransientE { s1 with currentId := 0 }
  { e with evs := evs ++ e.evs }

/-- `MediaPlayer::sendBufferUnderrun`: emit `onBufferUnderrun(m_currentId)`. -/
def sendBufferUnderrunE (s : PlayerState) : Eff where
  s := s
  evs := if s.observerSet then [Event.underrun s.currentId] else []
  calls := []
  ops := []
  crashed := false

/-- `MediaPlayer::sendBufferRefilled`: emit `onBufferRefilled(m_currentId)`. -/
def sendBufferRefilledE (s : PlayerState) : Eff where
  s := s
  evs := if s.observerSet then [Event.refilled s.currentId] else []
  calls := []
  ops := []
  crashed := false

/-- `MediaPlayer::sendStreamTagsToObserver`: deliver the collected tag vector
through `onTags(m_currentId, ...)` when an observer is attached. -/
def sendStreamTagsE (entries : Option (List TagKV)) (s : PlayerState) : Eff where
  s := s
  evs := if s.observerSet then [Event.tags s.currentId entries] else []
  calls := []
  ops := []
  crashed := false

/-- `MediaPlayer::validateSourceAndId`: a source adapter must be attached and
the quoted id must equal `m_currentId`. -/
def validateSourceAndId (s : PlayerState) (id : Nat) : Bool :=
  s.sourceSet && (id == s.currentId)

/-- `MediaPlayer::seek`: require a seekable stream and a set seek point,
issue a flushing key-unit seek to the seek point (milliseconds converted to
nanoseconds), and clear the OffsetManager in every case.  The engine's
answer to the seek request is the oracle `seekOk`. -/
def seekE (s : PlayerState) (seekOk : Bool) : Bool × Eff :=
  match s.seekPoint with
  | none =>
    (false, Eff.pure { s with seekPoint := none, seekable := false })
  | some ms =>
    if s.seekable then
      (seekOk,
        { s := { s with seekPoint := none, seekable := false }
          evs := []
          calls := []
          ops := [EOp.seekTo (ms * 1000000)]
          crashed := false })
    else
      (false, Eff.pure { s with seekPoint := none, seekable := false })

/-- Modelled from the spec: the `Normalizer` component (its source,
MediaPlayer/Normalizer.cpp, is not part of this repository).  Per §4.1 it is
constructed from `(sourceMin, sourceMax, targetMin, targetMax)`; construction
fails when `sourceMin == sourceMax` or when either pair is inverted.
`gdouble` arithmetic is modelled exactly over the rationals. -/
structure Normalizer where
  sMin : ℚ
  sMax : ℚ
  tMin : ℚ
  tMax : ℚ
  deriving DecidableEq, Repr

/-- Modelled from the spec: `Normalizer` construction, failing on a
degenerate or inverted interval. -/
def Normalizer.create (a b c d : ℚ) : Option Normalizer :=
  if a = b ∨ b < a ∨ d < c then none else some ⟨a, b, c, d⟩

/-- Modelled from the spec: `normalize(x)` computes
`targetMin + (x − sourceMin) · (targetMax − targetMin) / (sourceMax − sourceMin)`. -/
def Normalizer.normalize (n : Normalizer) (x : ℚ) : ℚ :=
  n.tMin + (x - n.sMin) * (n.tMax - n.tMin) / (n.sMax - n.sMin)

/-- `MediaPlayer::handleSetVolume`: build the `[0,100] → [0.0,1.0]`
normalizer (constants `AVS_SET_VOLUME_MIN/MAX = 0/100` are modelled from the
spec's public volume scale, `GST_SET_VOLUME_MIN/MAX = 0/1` are in the
source), require the volume element, and write the normalized value to the
engine volume element. -/
def handleSetVolumeE (s : PlayerState) (v : Int) : Bool × Eff :=
  match Normalizer.create 0 100 0 1 with
  | none => (false, Eff.pure s)
  | some n =>
    if ¬s.volumeSet then (false, Eff.pure s)
    else (true, Eff.pure { s with gstVolume := n.normalize (v : ℚ) })

/-- `MediaPlayer::handleAdjustVolume`: build the `[−100,100] → [−1.0,1.0]`
delta normalizer, read the engine volume, add the normalized delta, clamp to
`[0,1]`, and write it back. -/
def handleAdjustVolumeE (s : PlayerState) (d : Int) : Bool × Eff :=
  match Normalizer.create (-100) 100 (-1) 1 with
  | none => (false, Eff.pure s)
  | some n =>
    if ¬s.volumeSet then (false, Eff.pure s)
    else
      let gv := s.gstVolume + n.normalize (d : ℚ)
      let gv := min gv 1
      let gv := max gv 0
      (true, Eff.pure { s with gstVolume := gv })

/-- `MediaPlayer::handleSetMute`: require the volume element and write the
`mute` property. -/
def handleSetMuteE (s : PlayerState) (m : Bool) : Bool × Eff :=
  if ¬s.volumeSet then (false, Eff.pure s)
  else (true, Eff.pure { s with gstMute := m })

/-- `MediaPlayer::handleGetSpeakerSettings`: require the volume element,
build the `[0.0,1.0] → [0,100]` normalizer, read the engine volume and mute,
and report the rounded public volume.  `std::round` (half away from zero)
agrees with `round` on the non-negative values that arise here. -/
def handleGetSpeakerSettingsE (s : PlayerState) : Option (Int × Bool) × Eff :=
  if ¬s.volumeSet then (none, Eff.pure s)
  else
    match Normalizer.create 0 1 0 100 with
    | none => (none, Eff.pure s)
    | some n => (some (round (n.normalize s.gstVolume), s.gstMute), Eff.pure s)

/-- `MediaPlayer::handleSetObserver`: replace the observer reference
(`present` is whether the new observer is non-null). -/
def handleSetObserverE (s : PlayerState) (present : Bool) : Eff :=
  Eff.pure { s with observerSet := present }

/-- The common dispatcher-side body of the three `setSource` variants
(`handleSetAttachmentReaderSource`, `handleSetIStreamSource`,
`handleSetSource` for URLs): tear down the previous transient elements
first, then construct the adapter and connect the decoder's pad-added
signal (both successes folded into the oracle `ok`; on failure the sentinel
id 0 is returned), then mint `++g_id` and store it as the current id. -/
def handleSetSourceE (s : PlayerState) (ok : Bool) : Nat × Eff :=
  let e := tearDownTransientE s
  if ¬ok then (0, e)
  else
    let s2 := { e.s with sourceSet := true, gId := e.s.gId + 1, currentId := e.s.gId + 1 }
    (s2.currentId, { e with s := s2 })

/-- `MediaPlayer::handlePlay`: validate the source and id, query the engine
state (oracle `gr`, `cur`), fail when already `PLAYING` or a play is
pending; otherwise clear the two `*Sent` flags, set `playPending`, clear
`pauseImmediately`, fulfill the promise with `true`, and request `PAUSED`
when the decoder wants buffering, else `PLAYING`.  A state-change failure
after the promise is fulfilled raises `onPlaybackError`. -/
def handlePlayE (s : PlayerState) (id : Nat) (gr : StateRet) (cur : GstState)
    (useBuffering : Bool) (setOk : Bool) : Bool × Eff :=
  if ¬validateSourceAndId s id then (false, Eff.pure s)
  else if gr = StateRet.failure then (false, Eff.pure s)
  else if cur = GstState.playing then (false, Eff.pure s)
  else if s.playPending then (false, Eff.pure s)
  else
    let s1 := { s with
      playbackFinishedSent := false
      playbackStartedSent := false
      playPending := true
      pauseImmediately := false }
    let start := if useBuffering then GstState.paused else GstState.playing
    if setOk then
      (true, { Eff.pure s1 with ops := [EOp.setState start] })
    else
      (true, ({ Eff.pure s1 with ops := [EOp.setState start] }).andThen
        (sendPlaybackErrorE ErrorType.internalDeviceError))

/-- `MediaPlayer::play`, the public command: it returns `ERROR` (numerically
`false`) when no source is attached, but otherwise invokes the adapter's
`preprocess()` on the caller thread *before* the dispatched `handlePlay`
validates the id. -/
def playE (s : PlayerState) (id : Nat) (gr : StateRet) (cur : GstState)
    (useBuffering : Bool) (setOk : Bool) : Bool × Eff :=
  if ¬s.sourceSet then (false, Eff.pure s)
  else
    let r := handlePlayE s id gr cur useBuffering setOk
    (r.1, { r.2 with calls := ACall.preprocess :: r.2.calls })

/-- `MediaPlayer::handleStop`: validate, query the state (oracle `gr`,
`cur`, `pend`), fail when already `NULL` or already changing to `NULL`,
request `NULL`; on success fulfill with `true`, then complete a pending play
or resume (`sendPlaybackStarted` / `sendPlaybackResumed`) and finally
`sendPlaybackStopped`. -/
def handleStopE (s : PlayerState) (id : Nat) (gr : StateRet) (cur pend : GstState)
    (setOk : Bool) : Bool × Eff :=
  if ¬validateSourceAndId s id then (false, Eff.pure s)
  else if gr = StateRet.failure then (false, Eff.pure s)
  else if cur = GstState.null then (false, Eff.pure s)
  else if pend = GstState.null then (false, Eff.pure s)
  else if ¬setOk then (false, { Eff.pure s with ops := [EOp.setState GstState.null] })
  else
    let e0 : Eff := { Eff.pure s with ops := [EOp.setState GstState.null] }
    let e1 := e0.andThen fun s0 =>
      if s0.playPending then sendPlaybackStartedE s0
      else if s0.resumePending then sendPlaybackResumedE s0
      else Eff.pure s0
    (true, e1.andThen sendPlaybackStoppedE)

/-- `MediaPlayer::handlePause`: validate, query the state; when a play or
resume is pending this is an immediate pause (request `PAUSED`, set
`pauseImmediately`); otherwise require `PLAYING` and no pending pause,
request `PAUSED` and set `pausePending`. -/
def handlePauseE (s : PlayerState) (id : Nat) (gr : StateRet) (cur : GstState)
    (setOk : Bool) : Bool × Eff :=
  if ¬validateSourceAndId s id then (false, Eff.pure s)
  else if gr = StateRet.failure then (false, Eff.pure s)
  else if s.playPending || s.resumePending then
    if s.pausePending then (false, Eff.pure s)
    else if ¬setOk then (false, { Eff.pure s with ops := [EOp.setState GstState.paused] })
    else (true, { Eff.pure { s with pauseImmediately := true } with
      ops := [EOp.setState GstState.paused] })
  else if cur ≠ GstState.playing then (false, Eff.pure s)
  else if s.pausePending then (false, Eff.pure s)
  else if ¬setOk then (false, { Eff.pure s with ops := [EOp.setState GstState.paused] })
  else (true, { Eff.pure { s with pausePending := true } with
    ops := [EOp.setState GstState.paused] })

/-- `MediaPlayer::handleResume`: validate, query the state, require exactly
`PAUSED` and no pending resume, request `PLAYING`, set `resumePending`,
clear `pauseImmediately`. -/
def handleResumeE (s : PlayerState) (id : Nat) (gr : StateRet) (cur : GstState)
    (setOk : Bool) : Bool × Eff :=
  if ¬validateSourceAndId s id then (false, Eff.pure s)
  else if gr = StateRet.failure then (false, Eff.pure s)
  else if cur = GstState.playing then (false, Eff.pure s)
  else if cur ≠ GstState.paused then (false, Eff.pure s)
  else if s.resumePending then (false, Eff.pure s)
  else if ¬setOk then (false, { Eff.pure s with ops := [EOp.setState GstState.playing] })
  else (true, { Eff.pure { s with resumePending := true, pauseImmediately := false } with
    ops := [EOp.setState GstState.playing] })

/-- `MediaPlayer::handleGetOffset`: require the pipeline handle, validate,
require the state query to return `SUCCESS` and the state to be `PAUSED` or
`PLAYING`, query the position (oracle `posNs`, nanoseconds), and return it
truncated to milliseconds; every other path returns the `INVALID_OFFSET`
sentinel `-1`. -/
def handleGetOffsetE (s : PlayerState) (id : Nat) (gr : StateRet) (st : GstState)
    (posNs : Option Nat) : Int × Eff :=
  if ¬s.pipelineSet then (-1, Eff.pure s)
  else if ¬validateSourceAndId s id then (-1, Eff.pure s)
  else if gr = StateRet.failure then (-1, Eff.pure s)
  else if gr ≠ StateRet.success then (-1, Eff.pure s)
  else if st ≠ GstState.paused ∧ st ≠ GstState.playing then (-1, Eff.pure s)
  else
    match posNs with
    | none => (-1, Eff.pure s)
    | some ns => ((ns / 1000000 : Nat), Eff.pure s)

/-- `MediaPlayer::handleSetOffset`: validate, then record the seek point
(milliseconds) in the OffsetManager. -/
def handleSetOffsetE (s : PlayerState) (id : Nat) (ms : Nat) : Bool × Eff :=
  if ¬validateSourceAndId s id then (false, Eff.pure s)
  else (true, Eff.pure { s with seekPoint := some ms })

/-- The `GST_MESSAGE_EOS` branch of `MediaPlayer::handleBusMessage`, taken
only when the message source is the pipeline root.  It dereferences
`m_source` for `handleEndOfStream()` with no null check; when that call
fails, `sendPlaybackError` tears down and resets `m_source`, so the
following unguarded `m_source->hasAdditionalData()` dereferences a null
pointer (`crashed`).  With additional data the pipeline is cycled
`NULL → PLAYING` (each state-change failure raising `onPlaybackError`);
otherwise `sendPlaybackFinished` runs. -/
def handleBusEosE (s : PlayerState) (fromPipeline eosOk hasMore nullOk playOk : Bool) : Eff :=
  if ¬fromPipeline then Eff.pure s
  else if ¬s.sourceSet then { Eff.pure s with crashed := true }
  else
    let e1 :=
      if eosOk then { Eff.pure s with calls := [ACall.handleEndOfStream] }
      else
        ({ Eff.pure s with calls := [ACall.handleEndOfStream] }).andThen
          (sendPlaybackErrorE ErrorType.internalDeviceError)
    if ¬e1.s.sourceSet then { e1 with crashed := true }
    else
      let e2 := { e1 with calls := e1.calls ++ [ACall.hasAdditionalData] }
      if hasMore then
        let e3 := e2.andThen fun s2 =>
          if nullOk then { Eff.pure s2 with ops := [EOp.setState GstState.null] }
          else
            ({ Eff.pure s2 with ops := [EOp.setState GstState.null] }).andThen
              (sendPlaybackErrorE ErrorType.internalDeviceError)
        e3.andThen fun s3 =>
          if playOk then { Eff.pure s3 with ops := [EOp.setState GstState.playing] }
          else
            ({ Eff.pure s3 with ops := [EOp.setState GstState.playing] }).andThen
              (sendPlaybackErrorE ErrorType.internalDeviceError)
      else
        e2.andThen sendPlaybackFinishedE

/-- The `GST_MESSAGE_ERROR` branch of `MediaPlayer::handleBusMessage`: the
adapter's `isPlaybackRemote()` is consulted only behind a null check
(`m_source ? ... : false`), the engine error is mapped to a public kind
(`gerrorToErrorType`, external to this repository, is the oracle `ty`), and
`sendPlaybackError` runs.  This branch is total: it never dereferences a
null adapter. -/
def handleBusErrorE (s : PlayerState) (ty : ErrorType) : Eff :=
  let calls := if s.sourceSet then [ACall.isPlaybackRemote] else []
  let e := sendPlaybackErrorE ty s
  { e with calls := calls ++ e.calls }

/-- The `GST_MESSAGE_STATE_CHANGED` branch of
`MediaPlayer::handleBusMessage` (pipeline-root messages only), with the
transitions tested in source order.  `bufQ` is the buffering-query oracle of
the initial-preroll branch (`none` models a failing query). -/
def handleBusStateChangedE (s : PlayerState) (fromPipeline : Bool)
    (oldSt newSt pendSt : GstState) (bufQ : Option Bool) : Eff :=
  if ¬fromPipeline then Eff.pure s
  else if newSt = GstState.paused ∧ s.pauseImmediately then
    let e1 :=
      if s.playPending then sendPlaybackStartedE s
      else if s.resumePending then sendPlaybackResumedE s
      else Eff.pure s
    e1.andThen sendPlaybackPausedE
  else if newSt = GstState.playing then
    if ¬s.playbackStartedSent then sendPlaybackStartedE s
    else if s.isBufferUnderrun then
      (sendBufferRefilledE s).andThen fun s1 => Eff.pure { s1 with isBufferUnderrun := false }
    else if s.isPaused then
      (sendPlaybackResumedE s).andThen fun s1 => Eff.pure { s1 with isPaused := false }
    else Eff.pure s
  else if newSt = GstState.paused ∧ oldSt = GstState.ready ∧ pendSt = GstState.voidPending then
    if bufQ = none ∨ bufQ = some false then
      { Eff.pure s with ops := [EOp.setState GstState.playing] }
    else Eff.pure s
  else if newSt = GstState.paused ∧ oldSt = GstState.playing then
    if s.isBufferUnderrun then sendBufferUnderrunE s
    else if ¬s.isPaused then
      (sendPlaybackPausedE s).andThen fun s1 => Eff.pure { s1 with isPaused := true }
    else Eff.pure s
  else if newSt = GstState.null ∧ oldSt = GstState.ready then
    sendPlaybackStoppedE s
  else Eff.pure s

/-- The `GST_MESSAGE_BUFFERING` branch of `MediaPlayer::handleBusMessage`.
Below 100 percent: request `PAUSED` (a failure raises `onPlaybackError`) and
enter buffer underrun only when playback already started.  At 100 percent:
honor a racing immediate pause; otherwise refresh the seekable flag when the
seekable query succeeds, seek when both a seek point is set and the stream
is seekable, else request `PLAYING`. -/
def handleBusBufferingE (s : PlayerState) (pct : Nat) (pauseOk : Bool)
    (seekQ : Option Bool) (seekOk playOk : Bool) : Eff :=
  if pct < 100 then
    if ¬pauseOk then
      ({ Eff.pure s with ops := [EOp.setState GstState.paused] }).andThen
        (sendPlaybackErrorE ErrorType.internalDeviceError)
    else
      let s1 := if s.playbackStartedSent then { s with isBufferUnderrun := true } else s
      { Eff.pure s1 with ops := [EOp.setState GstState.paused] }
  else
    if s.pauseImmediately then Eff.pure s
    else
      let s1 :=
        match seekQ with
        | some b => { s with seekable := b }
        | none => s
      if s1.seekable ∧ s1.seekPoint ≠ none then (seekE s1 seekOk).2
      else if ¬playOk then
        ({ Eff.pure s1 with ops := [EOp.setState GstState.playing] }).andThen
          (sendPlaybackErrorE ErrorType.internalDeviceError)
      else { Eff.pure s1 with ops := [EOp.setState GstState.playing] }

/-- `collectOneTag`: one tag key with its indexed values; each value whose
type is recognized is converted and pushed back, all others are skipped.
Date-time values are stringified to ISO-8601 and delivered as `STRING`
(skipped when the conversion returns null). -/
def convertTagValue (key : String) (v : GVal) : Option TagKV :=
  match v with
  | GVal.str x => some ⟨key, x, TagType.string⟩
  | GVal.uint n => some ⟨key, toString n, TagType.uint⟩
  | GVal.int n => some ⟨key, toString n, TagType.int⟩
  | GVal.boolean b => some ⟨key, if b then "true" else "false", TagType.boolean⟩
  | GVal.dateTime (some iso) => some ⟨key, iso, TagType.string⟩
  | GVal.dateTime none => none
  | GVal.double r => some ⟨key, r, TagType.double⟩
  | GVal.buffer => none
  | GVal.other => none

/-- The `push_back` loop of `collectOneTag` over one tag's values, appending
to the shared accumulator vector. -/
def collectOneTag (acc : List TagKV) (key : String) (vals : List GVal) : List TagKV :=
  vals.foldl
    (fun a v =>
      match convertTagValue key v with
      | some t => a ++ [t]
      | none => a)
    acc

/-- `MediaPlayer::collectTags`: a message with no tags yields the null
vector; otherwise `gst_tag_list_foreach` runs `collectOneTag` over the tags
in message order. -/
def collectTags (msg : List (String × List GVal)) : Option (List TagKV) :=
  if msg.length = 0 then none
  else some (msg.foldl (fun a p => collectOneTag a p.1 p.2) [])

/-- The `GST_MESSAGE_TAG` branch of `MediaPlayer::handleBusMessage`. -/
def handleBusTagE (s : PlayerState) (msg : List (String × List GVal)) : Eff :=
  sendStreamTagsE (collectTags msg) s

/-- One dispatcher-serialized input: a public command (with the engine's
responses to the queries that command makes, passed as oracle fields) or a
pipeline bus message. -/
inductive Msg where
  | setObserver (present : Bool)
  | setSource (ok : Bool)
  | play (id : Nat) (gr : StateRet) (cur : GstState) (useBuffering setOk : Bool)
  | stop (id : Nat) (gr : StateRet) (cur pend : GstState) (setOk : Bool)
  | pause (id : Nat) (gr : StateRet) (cur : GstState) (setOk : Bool)
  | resume (id : Nat) (gr : StateRet) (cur : GstState) (setOk : Bool)
  | getOffset (id : Nat) (gr : StateRet) (st : GstState) (posNs : Option Nat)
  | setOffset (id : Nat) (ms : Nat)
  | setVolume (v : Int)
  | adjustVolume (d : Int)
  | setMute (m : Bool)
  | getSpeakerSettings
  | busEos (fromPipeline eosOk hasMore nullOk playOk : Bool)
  | busError (ty : ErrorType)
  | busStateChanged (fromPipeline : Bool) (oldSt newSt pendSt : GstState) (bufQ : Option Bool)
  | busBuffering (pct : Nat) (pauseOk : Bool) (seekQ : Option Bool) (seekOk playOk : Bool)
  | busTag (tagMsg : List (String × List GVal))
  deriving DecidableEq, Repr

/-- The dispatcher loop body: run the handler a message selects, dropping
the command's return value. -/
def step (s : PlayerState) (m : Msg) : Eff :=
  match m with
  | Msg.setObserver p => handleSetObserverE s p
  | Msg.setSource ok => (handleSetSourceE s ok).2
  | Msg.play id gr cur ub so => (playE s id gr cur ub so).2
  | Msg.stop id gr cur pend so => (handleStopE s id gr cur pend so).2
  | Msg.pause id gr cur so => (handlePauseE s id gr cur so).2
  | Msg.resume id gr cur so => (handleResumeE s id gr cur so).2
  | Msg.getOffset id gr st pos => (handleGetOffsetE s id gr st pos).2
  | Msg.setOffset id ms => (handleSetOffsetE s id ms).2
  | Msg.setVolume v => (handleSetVolumeE s v).2
  | Msg.adjustVolume d => (handleAdjustVolumeE s d).2
  | Msg.setMute b => (handleSetMuteE s b).2
  | Msg.getSpeakerSettings => (handleGetSpeakerSettingsE s).2
  | Msg.busEos fp eo hm no po => handleBusEosE s fp eo hm no po
  | Msg.busError ty => handleBusErrorE s ty
  | Msg.busStateChanged fp o n p bq => handleBusStateChangedE s fp o n p bq
  | Msg.busBuffering pct pk sq sk pl => handleBusBufferingE s pct pk sq sk pl
  | Msg.busTag tm => handleBusTagE s tm

/-- The observer-event trace of a serialized input sequence.  A crash (null
adapter dereference) ends the defined behaviour: the events emitted before
it are kept, nothing after it is defined. -/
def run (s : PlayerState) : List Msg → List Event
  | [] => []
  | m :: ms =>
    let e := step s m
    if e.crashed then e.evs else e.evs ++ run e.s ms

/-- Occurrences of one event in a trace. -/
def countEv (ev : Event) : List Event → Nat
  | [] => 0
  | x :: xs => (if x = ev then 1 else 0) + countEv ev xs

/-- Whether a message is a `play` command quoting id `i`. -/
def isPlayMsg (i : Nat) : Msg → Bool
  | Msg.play j _ _ _ _ => j == i
  | _ => false

/-- Number of `play(i)` commands in an input sequence. -/
def countPlayMsgs (i : Nat) : List Msg → Nat
  | [] => 0
  | m :: ms => (if isPlayMsg i m then 1 else 0) + countPlayMsgs i ms

/-- The offset result as the claim words it: the `INVALID_OFFSET` sentinel
exactly when the pipeline is unset, the id mismatches or no source is set,
the state query fails (`GST_STATE_CHANGE_FAILURE`), the state is not
`PAUSED` or `PLAYING`, or the position query fails; otherwise the engine
position in milliseconds.  Written from the claim, to be compared with
`handleGetOffsetE`. -/
def getOffsetClaimResult (s : PlayerState) (id : Nat) (gr : StateRet) (st : GstState)
    (posNs : Option Nat) : Int :=
  if ¬s.pipelineSet ∨ ¬validateSourceAndId s id ∨ gr = StateRet.failure
      ∨ (st ≠ GstState.paused ∧ st ≠ GstState.playing) ∨ posNs = none then -1
  else
    match posNs with
    | none => -1
    | some ns => ((ns / 1000000 : Nat) : Int)

/-- The tag selection as the claim words it: exactly the values whose type
is one of the five recognized kinds are copied, all others ignored.
Written from the claim, to be compared with `convertTagValue`. -/
def convertTagValueClaim (key : String) (v : GVal) : Option TagKV :=
  match v with
  | GVal.str x => some ⟨key, x, TagType.string⟩
  | GVal.uint n => some ⟨key, toString n, TagType.uint⟩
  | GVal.int n => some ⟨key, toString n, TagType.int⟩
  | GVal.boolean b => some ⟨key, if b then "true" else "false", TagType.boolean⟩
  | GVal.double r => some ⟨key, r, TagType.double⟩
  | _ => none

/-- The delivered tag list as the claim describes it (five kinds, message
order preserved). -/
def collectTagsClaim (msg : List (String × List GVal)) : List TagKV :=
  (msg.map fun p => p.2.filterMap (convertTagValueClaim p.1)).flatten

/-- The delivered tag list as the code actually selects it: the five kinds
plus date-time values (delivered as `STRING` via ISO-8601), message order
preserved. -/
def collectTagsAmended (msg : List (String × List GVal)) : List TagKV :=
  (msg.map fun p => p.2.filterMap (convertTagValue p.1)).flatten

/-- Potential counting how often `onPlaybackStopped(i)` / `onPlaybackFinished(i)`
can still fire: positive while `i` is the current id or has not been minted
yet. -/
def termPsi (i : Nat) (s : PlayerState) : Nat :=
  if s.currentId = i ∨ s.gId < i then 1 else 0

/-- Potential counting how often `onPlaybackStarted(i)` can still fire
without a further `play(i)` command: positive while `i` is current with the
started flag clear, plus one while `i` has not been minted yet. -/
def termPhi (i : Nat) (s : PlayerState) : Nat :=
  (if s.currentId = i ∧ s.playbackStartedSent = false then 1 else 0) +
    (if s.gId < i then 1 else 0)

/-- The induction obligations carried through one dispatcher step: the id
invariant `currentId ≤ gId` is preserved, the counter `gId` never
decreases, the stopped / finished event counts are paid for by `termPsi`,
and the started count by `termPhi` plus a budget (`1` exactly for a
`play(i)` command, which re-arms the started event by clearing
`m_playbackStartedSent`). -/
def EffBounds (i b : Nat) (s : PlayerState) (e : Eff) : Prop :=
  e.s.currentId ≤ e.s.gId ∧
  s.gId ≤ e.s.gId ∧
  countEv (Event.stopped i) e.evs + termPsi i e.s ≤ termPsi i s ∧
  countEv (Event.finished i) e.evs + termPsi i e.s ≤ termPsi i s ∧
  countEv (Event.started i) e.evs + termPhi i e.s ≤ termPhi i s + b

/-- A reachable controller snapshot with a live source id 1 and an observer
attached, used for the end-of-stream scenarios. -/
def eosDemoState : PlayerState :=
  { initialState with observerSet := true, sourceSet := true, currentId := 1, gId := 1 }

/-- A reachable snapshot with a live source id 1, an observer, and a play
pending, used for the stop scenario. -/
def stopDemoState : PlayerState :=
  { initialState with
    observerSet := true
    sourceSet := true
    currentId := 1
    gId := 1
    playPending := true }

/-- The input sequence realizing a second `onPlaybackStarted(1)`:
set an observer, set a source (id 1), play, reach `PLAYING` (started),
pause, reach `PAUSED` (paused), play again while paused (the handler clears
`m_playbackStartedSent`), reach `PLAYING` again (started again). -/
def doubleStartTrace : List Msg :=
  [Msg.setObserver true,
   Msg.setSource true,
   Msg.play 1 StateRet.success GstState.ready false true,
   Msg.busStateChanged true GstState.ready GstState.playing GstState.voidPending none,
   Msg.pause 1 StateRet.success GstState.playing true,
   Msg.busStateChanged true GstState.playing GstState.paused GstState.voidPending none,
   Msg.play 1 StateRet.success GstState.paused false true,
   Msg.busStateChanged true GstState.paused GstState.playing GstState.voidPending none]

/-- A player about to mint id 7 (the process-wide counter stands at 6),
with an observer attached, for the wrong-id-rejection scenario. -/
def wrongIdStart : PlayerState :=
  { initialState with gId := 6, observerSet := true }

/-- A reachable snapshot with a live source id 2, used for the wrong-id
side-effect scenario. -/
def wrongIdState : PlayerState :=
  { initialState with sourceSet := true, currentId := 2, gId := 2 }

/-- A reachable snapshot with a live source id 1 over a seekable stream
with a pending 30-second seek point, used for the buffering scenario. -/
def bufferingDemoState : PlayerState :=
  { initialState with
    observerSet := true
    sourceSet := true
    currentId := 1
    gId := 1
    playPending := true
    seekPoint := some 30000 }

/-- A tag message holding a single date-time value, outside the five
recognized kinds. -/
def dateTagMsg : List (String × List GVal) :=
  [("datetime", [GVal.dateTime (some "2017-01-01T00:00:00Z")])]

/-- A tag message mixing recognized, date-time, and ignored values across
two tags. -/
def mixedTagMsg : List (String × List GVal) :=
  [("title", [GVal.str "song", GVal.buffer]),
   ("track", [GVal.uint 3, GVal.other, GVal.boolean true])]

@[simp]
theorem countEv_nil (ev : Event) : countEv ev [] = 0 := rfl

@[simp]
theorem countEv_cons (ev x : Event) (xs : List Event) :
    countEv ev (x :: xs) = (if x = ev then 1 else 0) + countEv ev xs := rfl

@[simp]
theorem countEv_append (ev : Event) (l1 l2 : List Event) :
    countEv ev (l1 ++ l2) = countEv ev l1 + countEv ev l2 := by
  induction l1 with
  | nil => simp
  | cons x xs ih => simp [ih]; omega

/-- C4 counterexample: with an observer attached, the scenario
`setSource → id 7; setSource → id 8; play(7)` does emit an observer event
carrying id 7: the second `setSource`, while tearing down source 7, emits
`onPlaybackStopped(7)`.  This contradicts "no observer events are emitted
for id 7 or id 8 at any point in the scenario". -/
theorem c4_counterexample :
    (handleSetSourceE wrongIdStart true).1 = 7 ∧
    (handleSetSourceE (handleSetSourceE wrongIdStart true).2.s true).1 = 8 ∧
    countEv (Event.stopped 7)
      (handleSetSourceE (handleSetSourceE wrongIdStart true).2.s true).2.evs = 1 := by
  decide

/-- C4 (amended): in the scenario `setSource → id 7; setSource → id 8;
play(7)`, the call `play(7)` returns false and itself emits no observer
event and changes no controller state; the first `setSource` emits nothing;
the single observer event of the scenario is `onPlaybackStopped(7)`,
emitted by the second `setSource` while it tears down source 7. -/
theorem c4_amended_theorem :
    (handleSetSourceE wrongIdStart true).1 = 7 ∧
    (handleSetSourceE wrongIdStart true).2.evs = [] ∧
    (handleSetSourceE (handleSetSourceE wrongIdStart true).2.s true).1 = 8 ∧
    (handleSetSourceE (handleSetSourceE wrongIdStart true).2.s true).2.evs =
      [Event.stopped 7] ∧
    (playE (handleSetSourceE (handleSetSourceE wrongIdStart true).2.s true).2.s 7
      StateRet.success GstState.null false true).1 = false ∧
    (playE (handleSetSourceE (handleSetSourceE wrongIdStart true).2.s true).2.s 7
      StateRet.success GstState.null false true).2.evs = [] ∧
    (playE (handleSetSourceE (handleSetSourceE wrongIdStart true).2.s true).2.s 7
      StateRet.success GstState.null false true).2.s =
      (handleSetSourceE (handleSetSourceE wrongIdStart true).2.s true).2.s := by
  decide

theorem collectOneTag_eq (key : String) (vals : List GVal) (acc : List TagKV) :
    collectOneTag acc key vals = acc ++ vals.filterMap (convertTagValue key) := by
  induction vals generalizing acc with
  | nil => simp [collectOneTag]
  | cons v vs ih =>
    have hstep : collectOneTag acc key (v :: vs) =
        collectOneTag
          (match convertTagValue key v with
            | some t => acc ++ [t]
            | none => acc) key vs := rfl
    rw [hstep]
    cases h : convertTagValue key v <;> simp [h, ih]

theorem collectTags_foldl_eq (msg : List (String × List GVal)) (acc : List TagKV) :
    msg.foldl (fun a p => collectOneTag a p.1 p.2) acc = acc ++ collectTagsAmended msg := by
  induction msg generalizing acc with
  | nil => simp [collectTagsAmended]
  | cons p ps ih =>
    have hstep : (p :: ps).foldl (fun a q => collectOneTag a q.1 q.2) acc =
        ps.foldl (fun a q => collectOneTag a q.1 q.2) (collectOneTag acc p.1 p.2) := rfl
    rw [hstep, ih, collectOneTag_eq]
    simp [collectTagsAmended]

/-- C8 counterexample: a tag whose value is a GStreamer date-time — not one
of the five recognized kinds — is nonetheless copied into the delivered
list (as a `STRING` holding the ISO-8601 form), so the delivered list is
not "exactly the tags whose value type is one of the five recognized
kinds". -/
theorem c8_counterexample :
    collectTags dateTagMsg =
      some [⟨"datetime", "2017-01-01T00:00:00Z", TagType.string⟩] ∧
    collectTagsClaim dateTagMsg = [] := by
  exact ⟨rfl, rfl⟩

/-- C8 (amended): for every non-empty TAG message, the delivered list
consists of exactly the values whose type is one of the five recognized
kinds *or* a date-time with a successful ISO-8601 conversion (delivered as
`STRING`); buffers, failed date-time conversions and unknown types are
ignored, and the order of tags and of values within the message is
preserved. -/
theorem c8_amended_theorem (msg : List (String × List GVal)) (h : msg ≠ []) :
    collectTags msg = some (collectTagsAmended msg) := by
  unfold collectTags
  rw [if_neg (by simpa using h), collectTags_foldl_eq]
  simp

/-- C8 witness: the amended theorem applied to a concrete message mixing
recognized, date-time-free and ignored values. -/
theorem c8_witness :
    mixedTagMsg ≠ [] ∧ collectTags mixedTagMsg = some (collectTagsAmended mixedTagMsg) :=
  ⟨by decide, c8_amended_theorem mixedTagMsg (by decide)⟩

/-- C7 counterexample: when `gst_element_get_state` returns
`GST_STATE_CHANGE_ASYNC` — not a failure, in the code's own terminology —
with the state `PLAYING` and a successful position query, `handleGetOffset`
still returns the `INVALID_OFFSET` sentinel, although none of the
conditions the claim lists ("exactly when ...") holds, so the claim's
biconditional fails. -/
theorem c7_counterexample :
    getOffsetClaimResult eosDemoState 1 StateRet.async GstState.playing (some 5000000) = 5 ∧
    (handleGetOffsetE eosDemoState 1 StateRet.async GstState.playing (some 5000000)).1 = -1 := by
  decide

/-- C7 (amended): `getOffset` returns the engine position truncated to
non-negative milliseconds when the state query returns `SUCCESS`, the state
is `PAUSED` or `PLAYING` and the position query succeeds; it returns the
`INVALID_OFFSET` sentinel exactly when the pipeline is unset, the id
mismatches or no source is set, the state query does not return `SUCCESS`
(failure, `ASYNC` or `NO_PREROLL`), the state is not `PAUSED`/`PLAYING`, or
the position query fails. -/
theorem c7_amended_theorem (s : PlayerState) (id : Nat) (gr : StateRet) (st : GstState)
    (posNs : Option Nat) :
    ((handleGetOffsetE s id gr st posNs).1 = -1 ↔
      (s.pipelineSet = false ∨ validateSourceAndId s id = false ∨ gr ≠ StateRet.success
        ∨ (st ≠ GstState.paused ∧ st ≠ GstState.playing) ∨ posNs = none)) ∧
    (∀ ns : Nat, posNs = some ns → (handleGetOffsetE s id gr st posNs).1 ≠ -1 →
      (handleGetOffsetE s id gr st posNs).1 = ((ns / 1000000 : Nat) : Int)) ∧
    (0 ≤ (handleGetOffsetE s id gr st posNs).1 ∨
      (handleGetOffsetE s id gr st posNs).1 = -1) := by
  unfold handleGetOffsetE
  cases posNs with
  | none => split_ifs <;> simp_all
  | some ns =>
    split_ifs <;> simp_all <;> omega

/-- C7 witness: the amended theorem applied at a successful query in state
`PAUSED`, yielding 7 milliseconds. -/
theorem c7_witness :
    (handleGetOffsetE eosDemoState 1 StateRet.success GstState.paused (some 7000000)).1 =
      ((7000000 / 1000000 : Nat) : Int) :=
  (c7_amended_theorem eosDemoState 1 StateRet.success GstState.paused (some 7000000)).2.1
    7000000 rfl (by decide)

/-- C5 counterexample: `play` with a wrong id does invoke an adapter
method: the public wrapper calls `m_source->preprocess()` before the
dispatched handler validates the id, so the call returns false yet
`preprocess` has run. -/
theorem c5_counterexample :
    (playE wrongIdState 1 StateRet.success GstState.null false true).1 = false ∧
    (playE wrongIdState 1 StateRet.success GstState.null false true).2.calls =
      [ACall.preprocess] := by
  decide

/-- C5 (amended): every id-taking handler validates the source and id
first, and on validation failure returns failure with no state change, no
observer event, no engine request — and, except for `play`, no adapter
call.  `play` alone invokes the adapter's `preprocess()` before validation
whenever any source is attached. -/
theorem c5_amended_theorem (s : PlayerState) (id : Nat) (gr : StateRet)
    (cur pend st : GstState) (useBuffering setOk : Bool) (posNs : Option Nat) (ms : Nat)
    (hv : validateSourceAndId s id = false) :
    handleStopE s id gr cur pend setOk = (false, Eff.pure s) ∧
    handlePauseE s id gr cur setOk = (false, Eff.pure s) ∧
    handleResumeE s id gr cur setOk = (false, Eff.pure s) ∧
    handleGetOffsetE s id gr st posNs = (-1, Eff.pure s) ∧
    handleSetOffsetE s id ms = (false, Eff.pure s) ∧
    (s.sourceSet = false →
      playE s id gr cur useBuffering setOk = (false, Eff.pure s)) ∧
    (s.sourceSet = true →
      playE s id gr cur useBuffering setOk =
        (false, { Eff.pure s with calls := [ACall.preprocess] })) := by
  refine ⟨?_, ?_, ?_, ?_, ?_, ?_, ?_⟩
  · simp [handleStopE, hv]
  · simp [handlePauseE, hv]
  · simp [handleResumeE, hv]
  · unfold handleGetOffsetE
    split_ifs <;> simp_all
  · simp [handleSetOffsetE, hv]
  · intro h; simp [playE, h]
  · intro h; simp [playE, h, handlePlayE, hv, Eff.pure]

/-- C5 witness: the amended theorem applied at a live source id 2 with the
wrong id 1 quoted. -/
theorem c5_witness :
    validateSourceAndId wrongIdState 1 = false ∧
    handleStopE wrongIdState 1 StateRet.success GstState.playing GstState.voidPending true =
      (false, Eff.pure wrongIdState) :=
  ⟨by decide,
   (c5_amended_theorem wrongIdState 1 StateRet.success GstState.playing GstState.voidPending
     GstState.playing false true none 0 (by decide)).1⟩

/-- C9: for every volume `v` in `[0,100]`, after `setVolume(v)` succeeds,
`getSpeakerSettings` reports exactly `v`: the `[0,100] → [0.0,1.0]`
normalization in, the `[0.0,1.0] → [0,100]` normalization out, and the
rounding to the nearest integer compose to the identity (the arithmetic is
exact over the rationals, and the claim's rounding absorbs it in any
case). -/
theorem c9_volume_roundtrip (s : PlayerState) (v : Int)
    (h0 : 0 ≤ v) (h1 : v ≤ 100) (hvol : s.volumeSet = true) :
    (handleSetVolumeE s v).1 = true ∧
    (handleGetSpeakerSettingsE (handleSetVolumeE s v).2.s).1 = some (v, s.gstMute) := by
  unfold handleSetVolumeE handleGetSpeakerSettingsE Normalizer.create
  norm_num [hvol, Normalizer.normalize, Eff.pure]

/-- C9 witness: the round trip at `v = 37` from the freshly initialized
player. -/
theorem c9_witness :
    (handleSetVolumeE initialState 37).1 = true ∧
    (handleGetSpeakerSettingsE (handleSetVolumeE initialState 37).2.s).1 =
      some (37, false) :=
  c9_volume_roundtrip initialState 37 (by decide) (by decide) rfl

/-- C10: the EOS branch of the bus handler dereferences the active adapter
unconditionally, so with no adapter attached a pipeline-root EOS message
crashes (null dereference) — an adapter being attached is a necessary
precondition for its safety — while the ERROR branch guards its adapter
access (`m_source ? m_source->isPlaybackRemote() : false`) and is total for
every state, adapter attached or not. -/
theorem c10_safety (s : PlayerState) (eosOk hasMore nullOk playOk : Bool) (ty : ErrorType) :
    (s.sourceSet = false →
      (handleBusEosE s true eosOk hasMore nullOk playOk).crashed = true) ∧
    (handleBusErrorE s ty).crashed = false := by
  constructor
  · intro h
    simp [handleBusEosE, h]
  · simp [handleBusErrorE, sendPlaybackErrorE, tearDownTransientE, sendPlaybackStoppedE,
      tearDownCore, Eff.andThen, Eff.pure]

/-- C10 witness: the safety theorem applied to the freshly initialized
player, which has no adapter attached. -/
theorem c10_witness :
    initialState.sourceSet = false ∧
    (handleBusEosE initialState true true true true true).crashed = true ∧
    (handleBusErrorE initialState ErrorType.unknown).crashed = false :=
  ⟨rfl,
   (c10_safety initialState true true true true ErrorType.unknown).1 rfl,
   (c10_safety initialState true true true true ErrorType.unknown).2⟩

/-- C2: a `stop(id)` that succeeds (source set, id current, state query not
failing, state neither already `NULL` nor already changing to `NULL`, and
the `NULL` state change succeeding) emits, in order, `onPlaybackStarted` if
a play was pending — else `onPlaybackResumed` if a resume was pending —
then `onPlaybackStopped`; a stop on an already-stopped or already-stopping
pipeline returns false with no observer event.  The hypotheses `hne` and
`hps` are the reachability invariants "the current id is nonzero whenever a
source is attached" and "a pending play implies the started flag is
clear". -/
theorem c2_stop_theorem (s : PlayerState) (id : Nat) (gr : StateRet)
    (cur pend : GstState) (setOk : Bool)
    (hobs : s.observerSet = true) (hsrc : s.sourceSet = true)
    (hid : id = s.currentId) (hne : s.currentId ≠ 0)
    (hps : s.playPending = true → s.playbackStartedSent = false) :
    (gr ≠ StateRet.failure → cur ≠ GstState.null → pend ≠ GstState.null → setOk = true →
      (handleStopE s id gr cur pend setOk).1 = true ∧
      (handleStopE s id gr cur pend setOk).2.evs =
        (if s.playPending then [Event.started id]
         else if s.resumePending then [Event.resumed id] else []) ++ [Event.stopped id]) ∧
    ((cur = GstState.null ∨ pend = GstState.null) →
      (handleStopE s id gr cur pend setOk).1 = false ∧
      (handleStopE s id gr cur pend setOk).2.evs = []) := by
  have hval : validateSourceAndId s id = true := by
    simp [validateSourceAndId, hsrc, hid]
  constructor
  · intro hgr hcur hpend hset
    subst hset hid
    unfold handleStopE
    simp only [hval, hgr, hcur, hpend]
    simp [Eff.andThen, Eff.pure, sendPlaybackStartedE, sendPlaybackResumedE,
      sendPlaybackStoppedE, tearDownCore, hobs, hne]
    by_cases hp : s.playPending = true
    · simp [hp, hps hp, hobs, hne]
    · simp at hp
      by_cases hr : s.resumePending = true <;> simp [hp, hr, hobs, hne]
  · intro hdone
    unfold handleStopE
    rcases hdone with h | h <;> subst h <;> simp [hval, Eff.pure]

/-- C2 witness: the theorem applied at a live source id 1 with a play
pending: the events are `started 1` then `stopped 1` and the call returns
true. -/
theorem c2_witness :
    (handleStopE stopDemoState 1 StateRet.success GstState.playing GstState.voidPending
      true).1 = true ∧
    (handleStopE stopDemoState 1 StateRet.success GstState.playing GstState.voidPending
      true).2.evs = [Event.started 1, Event.stopped 1] := by
  have h := (c2_stop_theorem stopDemoState 1 StateRet.success GstState.playing
    GstState.voidPending true rfl rfl rfl (by decide) (fun _ => rfl)).1
    (by decide) (by decide) (by decide) rfl
  simpa [stopDemoState, initialState] using h

/-- C6: on `BUFFERING(pct)` with `pct < 100` (and the engine accepting the
state request), the controller requests `PAUSED`, emits nothing, and the
underrun flag is set only if playback had already started (otherwise it is
left as it was); on `BUFFERING(100)`, if `pauseImmediately` is set nothing
at all is done, otherwise the seekable flag is refreshed from the engine
(query result `b`) and, if a seek point is set and the stream is seekable,
the seek to that point is issued, else `PLAYING` is requested. -/
theorem c6_buffering_theorem (s : PlayerState) (pct : Nat) (b : Bool) (seekOk : Bool) :
    (pct < 100 →
      (handleBusBufferingE s pct true (some b) seekOk true).ops =
        [EOp.setState GstState.paused] ∧
      (handleBusBufferingE s pct true (some b) seekOk true).s.isBufferUnderrun =
        (s.isBufferUnderrun || s.playbackStartedSent) ∧
      (handleBusBufferingE s pct true (some b) seekOk true).evs = []) ∧
    (¬pct < 100 → s.pauseImmediately = true →
      handleBusBufferingE s pct true (some b) seekOk true = Eff.pure s) ∧
    (¬pct < 100 → s.pauseImmediately = false → b = true →
      ∀ ms : Nat, s.seekPoint = some ms →
        (handleBusBufferingE s pct true (some b) seekOk true).ops =
          [EOp.seekTo (ms * 1000000)]) ∧
    (¬pct < 100 → s.pauseImmediately = false → (b = false ∨ s.seekPoint = none) →
      (handleBusBufferingE s pct true (some b) seekOk true).ops =
        [EOp.setState GstState.playing] ∧
      (handleBusBufferingE s pct true (some b) seekOk true).s.seekable = b) := by
  refine ⟨?_, ?_, ?_, ?_⟩
  · intro hlt
    unfold handleBusBufferingE
    simp only [hlt, if_true]
    by_cases hst : s.playbackStartedSent = true <;> simp [hst, Eff.pure]
  · intro hge hpi
    unfold handleBusBufferingE
    simp [hge, hpi]
  · intro hge hpi hb ms hsp
    unfold handleBusBufferingE seekE
    simp [hge, hpi, hb, hsp, Eff.pure]
  · intro hge hpi hcase
    unfold handleBusBufferingE
    rcases hcase with hb | hsp
    · simp [hge, hpi, hb, Eff.pure]
    · by_cases hb : b = true <;> simp [hge, hpi, hb, hsp, Eff.pure]

/-- C6 witness: the theorem applied at a live source with a pending
30-second seek point: `BUFFERING(100)` with a seekable stream issues the
seek to 30 seconds (in nanoseconds). -/
theorem c6_witness :
    (handleBusBufferingE bufferingDemoState 100 true (some true) true true).ops =
      [EOp.seekTo 30000000000] :=
  (c6_buffering_theorem bufferingDemoState 100 true true).2.2.1
    (by decide) rfl rfl 30000 rfl

/-- C1 counterexample: when the adapter's `handleEndOfStream()` fails on a
pipeline-root EOS, the code does not take the claim's "otherwise" branch —
no `onPlaybackFinished` is emitted; instead `onPlaybackError` fires (which
tears down and resets the adapter) and the handler then dereferences the
now-null adapter for `hasAdditionalData()`. -/
theorem c1_counterexample :
    (handleBusEosE eosDemoState true false true true true).crashed = true ∧
    countEv (Event.finished 1) (handleBusEosE eosDemoState true false true true true).evs
      = 0 ∧
    (handleBusEosE eosDemoState true false true true true).evs =
      [Event.error 1 ErrorType.internalDeviceError] := by
  decide

/-- C1 (amended): on a pipeline-root EOS with an adapter attached, the
adapter is asked `handleEndOfStream()`; the pipeline is cycled
`NULL → PLAYING` whenever `hasAdditionalData()` is true and the call
succeeded; when it succeeded and there is no additional data,
`onPlaybackFinished` is emitted, the adapter shut down, the current id
cleared and the transients torn down; when `handleEndOfStream()` fails,
`onPlaybackError` is emitted (with its own teardown) and the handler then
dereferences the null adapter (undefined behaviour) instead of emitting
`onPlaybackFinished`. -/
theorem c1_amended_theorem (s : PlayerState) (eosOk hasMore : Bool)
    (hsrc : s.sourceSet = true) (hobs : s.observerSet = true)
    (hfin : s.playbackFinishedSent = false) (hpipe : s.pipelineSet = true) :
    (eosOk = true → hasMore = true →
      handleBusEosE s true eosOk hasMore true true =
        { s := s
          evs := []
          calls := [ACall.handleEndOfStream, ACall.hasAdditionalData]
          ops := [EOp.setState GstState.null, EOp.setState GstState.playing]
          crashed := false }) ∧
    (eosOk = true → hasMore = false →
      (handleBusEosE s true eosOk hasMore true true).evs =
        [Event.finished s.currentId] ∧
      (handleBusEosE s true eosOk hasMore true true).calls =
        [ACall.handleEndOfStream, ACall.hasAdditionalData, ACall.shutdown] ∧
      (handleBusEosE s true eosOk hasMore true true).s.currentId = 0 ∧
      (handleBusEosE s true eosOk hasMore true true).s.sourceSet = false ∧
      (handleBusEosE s true eosOk hasMore true true).ops =
        [EOp.setState GstState.null] ∧
      (handleBusEosE s true eosOk hasMore true true).crashed = false) ∧
    (eosOk = false →
      (handleBusEosE s true eosOk hasMore true true).evs =
        [Event.error s.currentId ErrorType.internalDeviceError] ∧
      (handleBusEosE s true eosOk hasMore true true).crashed = true) := by
  refine ⟨?_, ?_, ?_⟩
  · intro he hm
    subst he hm
    unfold handleBusEosE
    simp [hsrc, Eff.pure, Eff.andThen]
  · intro he hm
    subst he hm
    unfold handleBusEosE
    simp [hsrc, hobs, hfin, hpipe, Eff.pure, Eff.andThen, sendPlaybackFinishedE,
      tearDownTransientE, sendPlaybackStoppedE, tearDownCore]
  · intro he
    subst he
    unfold handleBusEosE
    simp [hsrc, hobs, Eff.pure, Eff.andThen, sendPlaybackErrorE,
      tearDownTransientE, sendPlaybackStoppedE, tearDownCore]

/-- C1 witness: the amended theorem applied at a live source id 1 on a
successful end of stream with no further data: `onPlaybackFinished(1)` is
emitted and the current id is cleared. -/
theorem c1_witness :
    (handleBusEosE eosDemoState true true false true true).evs = [Event.finished 1] ∧
    (handleBusEosE eosDemoState true true false true true).s.currentId = 0 :=
  have h := (c1_amended_theorem eosDemoState true false rfl rfl rfl rfl).2.1 rfl rfl
  ⟨h.1, h.2.2.1⟩

@[simp]
theorem countEv_singleton (ev x : Event) : countEv ev [x] = if x = ev then 1 else 0 := by
  simp

@[simp]
theorem countEv_ite (ev : Event) (p : Prop) [Decidable p] (l1 l2 : List Event) :
    countEv ev (if p then l1 else l2) = if p then countEv ev l1 else countEv ev l2 := by
  split_ifs <;> rfl

theorem effBounds_andThen {i b1 b2 : Nat} {s : PlayerState} {e1 : Eff}
    {f : PlayerState → Eff}
    (h1 : EffBounds i b1 s e1) (h2 : EffBounds i b2 e1.s (f e1.s)) :
    EffBounds i (b1 + b2) s (e1.andThen f) := by
  obtain ⟨a1, g1, p1, q1, r1⟩ := h1
  obtain ⟨a2, g2, p2, q2, r2⟩ := h2
  refine ⟨?_, ?_, ?_, ?_, ?_⟩ <;> simp only [Eff.andThen, countEv_append] <;> omega

theorem effBounds_mono {i : Nat} {s : PlayerState} {e : Eff}
    (h : EffBounds i 0 s e) (b : Nat) : EffBounds i b s e :=
  ⟨h.1, h.2.1, h.2.2.1, h.2.2.2.1, by have := h.2.2.2.2; omega⟩

theorem effBounds_frame (i : Nat) (s s2 : PlayerState) (evs : List Event)
    (calls : List ACall) (ops : List EOp) (cr : Bool)
    (hc : s2.currentId = s.currentId) (hg : s2.gId = s.gId)
    (hst : s2.playbackStartedSent = s.playbackStartedSent)
    (hinv : s.currentId ≤ s.gId)
    (h1 : countEv (Event.stopped i) evs = 0)
    (h2 : countEv (Event.finished i) evs = 0)
    (h3 : countEv (Event.started i) evs = 0) :
    EffBounds i 0 s ⟨s2, evs, calls, ops, cr⟩ := by
  refine ⟨?_, ?_, ?_, ?_, ?_⟩ <;>
    simp [termPsi, termPhi, hc, hg, hst, h1, h2, h3, hinv]

theorem effBounds_tearDownCore (i : Nat) (s : PlayerState) (hi : 1 ≤ i) :
    EffBounds i 0 s (tearDownCore s) := by
  refine ⟨?_, ?_, ?_, ?_, ?_⟩ <;>
    simp [tearDownCore, termPsi, termPhi] <;> (try split_ifs) <;> omega

theorem effBounds_sendStopped (i : Nat) (s : PlayerState) (hi : 1 ≤ i)
    (hinv : s.currentId ≤ s.gId) :
    EffBounds i 0 s (sendPlaybackStoppedE s) := by
  refine ⟨?_, ?_, ?_, ?_, ?_⟩ <;>
    simp [sendPlaybackStoppedE, tearDownCore, termPsi, termPhi] <;>
    (try split_ifs) <;> (try simp_all) <;> omega

theorem effBounds_sendStarted (i : Nat) (s : PlayerState) (hi : 1 ≤ i)
    (hinv : s.currentId ≤ s.gId) :
    EffBounds i 0 s (sendPlaybackStartedE s) := by
  refine ⟨?_, ?_, ?_, ?_, ?_⟩ <;>
    simp [sendPlaybackStartedE, Eff.pure, termPsi, termPhi] <;>
    (try split_ifs) <;> (try simp_all) <;> omega

theorem effBounds_sendPaused (i : Nat) (s : PlayerState) (hinv : s.currentId ≤ s.gId) :
    EffBounds i 0 s (sendPlaybackPausedE s) := by
  refine effBounds_frame i s _ _ _ _ _ rfl rfl rfl hinv ?_ ?_ ?_ <;>
    split_ifs <;> simp

theorem effBounds_sendResumed (i : Nat) (s : PlayerState) (hinv : s.currentId ≤ s.gId) :
    EffBounds i 0 s (sendPlaybackResumedE s) := by
  refine effBounds_frame i s _ _ _ _ _ rfl rfl rfl hinv ?_ ?_ ?_ <;>
    split_ifs <;> simp

theorem effBounds_sendUnderrun (i : Nat) (s : PlayerState) (hinv : s.currentId ≤ s.gId) :
    EffBounds i 0 s (sendBufferUnderrunE s) := by
  refine effBounds_frame i s _ _ _ _ _ rfl rfl rfl hinv ?_ ?_ ?_ <;>
    split_ifs <;> simp

theorem effBounds_sendRefilled (i : Nat) (s : PlayerState) (hinv : s.currentId ≤ s.gId) :
    EffBounds i 0 s (sendBufferRefilledE s) := by
  refine effBounds_frame i s _ _ _ _ _ rfl rfl rfl hinv ?_ ?_ ?_ <;>
    split_ifs <;> simp

theorem effBounds_sendTags (i : Nat) (entries : Option (List TagKV)) (s : PlayerState)
    (hinv : s.currentId ≤ s.gId) :
    EffBounds i 0 s (sendStreamTagsE entries s) := by
  refine effBounds_frame i s _ _ _ _ _ rfl rfl rfl hinv ?_ ?_ ?_ <;>
    split_ifs <;> simp

theorem effBounds_sendError (i : Nat) (ty : ErrorType) (s : PlayerState) (hi : 1 ≤ i) :
    EffBounds i 0 s (sendPlaybackErrorE ty s) := by
  refine ⟨?_, ?_, ?_, ?_, ?_⟩ <;>
    simp [sendPlaybackErrorE, tearDownTransientE, tearDownCore, termPsi, termPhi] <;>
    (try split_ifs) <;> (try simp_all) <;> omega

theorem effBounds_sendFinished (i : Nat) (s : PlayerState) (hi : 1 ≤ i)
    (hinv : s.currentId ≤ s.gId) :
    EffBounds i 0 s (sendPlaybackFinishedE s) := by
  by_cases hf : s.playbackFinishedSent = true <;>
    by_cases ho : s.observerSet = true <;>
    refine ⟨?_, ?_, ?_, ?_, ?_⟩ <;>
    simp [sendPlaybackFinishedE, tearDownTransientE, sendPlaybackStoppedE,
      tearDownCore, termPsi, termPhi, hf, ho] <;>
    (try split_ifs) <;> (try simp_all) <;> omega

theorem effBounds_tearDownTransient (i : Nat) (s : PlayerState) (hi : 1 ≤ i)
    (hinv : s.currentId ≤ s.gId) :
    EffBounds i 0 s (tearDownTransientE s) := by
  unfold tearDownTransientE
  split
  · exact effBounds_andThen (effBounds_sendStopped i s hi hinv)
      (effBounds_tearDownCore i _ hi)
  · exact effBounds_tearDownCore i s hi

theorem effBounds_seek (i : Nat) (s : PlayerState) (seekOk : Bool)
    (hinv : s.currentId ≤ s.gId) :
    EffBounds i 0 s (seekE s seekOk).2 := by
  unfold seekE
  rcases hsp : s.seekPoint with _ | ms
  · exact effBounds_frame i s _ _ _ _ _ rfl rfl rfl hinv rfl rfl rfl
  · split_ifs <;>
      exact effBounds_frame i s _ _ _ _ _ rfl rfl rfl hinv rfl rfl rfl

theorem effBounds_pure (i : Nat) (s : PlayerState) (hinv : s.currentId ≤ s.gId) :
    EffBounds i 0 s (Eff.pure s) :=
  effBounds_frame i s s [] [] [] false rfl rfl rfl hinv rfl rfl rfl

theorem tearDownTransient_state (s : PlayerState) :
    (tearDownTransientE s).s = (tearDownCore s).s := by
  unfold tearDownTransientE sendPlaybackStoppedE tearDownCore Eff.andThen
  split <;> rfl

theorem sendError_state (ty : ErrorType) (s : PlayerState) :
    (sendPlaybackErrorE ty s).s.sourceSet = false ∧
    (sendPlaybackErrorE ty s).s.currentId = 0 := by
  unfold sendPlaybackErrorE tearDownTransientE sendPlaybackStoppedE tearDownCore Eff.andThen
  simp

theorem effBounds_setObserver (i : Nat) (s : PlayerState) (p : Bool)
    (hinv : s.currentId ≤ s.gId) :
    EffBounds i 0 s (handleSetObserverE s p) :=
  effBounds_frame i s _ [] [] [] false rfl rfl rfl hinv rfl rfl rfl

theorem effBounds_setSource (i : Nat) (s : PlayerState) (ok : Bool) (hi : 1 ≤ i)
    (hinv : s.currentId ≤ s.gId) :
    EffBounds i 0 s (handleSetSourceE s ok).2 := by
  cases ok with
  | false =>
    have h := effBounds_tearDownTransient i s hi hinv
    exact ⟨h.1, h.2.1, h.2.2.1, h.2.2.2.1, h.2.2.2.2⟩
  | true =>
    refine ⟨?_, ?_, ?_, ?_, ?_⟩ <;>
      simp [handleSetSourceE, tearDownTransientE, sendPlaybackStoppedE, tearDownCore,
        Eff.andThen, termPsi, termPhi] <;>
      (try split_ifs) <;> (try simp_all) <;> (try split_ifs) <;> omega

theorem effBounds_handlePlay (i : Nat) (s : PlayerState) (id : Nat) (gr : StateRet)
    (cur : GstState) (ub so : Bool) (hi : 1 ≤ i) (hinv : s.currentId ≤ s.gId) :
    EffBounds i (if id = i then 1 else 0) s (handlePlayE s id gr cur ub so).2 := by
  unfold handlePlayE
  by_cases h1 : validateSourceAndId s id = true
  case neg =>
    simp [h1]
    exact effBounds_mono (effBounds_pure i s hinv) _
  case pos =>
    have hid : id = s.currentId := by
      simp [validateSourceAndId] at h1
      exact h1.2
    by_cases h2 : gr = StateRet.failure
    · simp [h1, h2]
      exact effBounds_mono (effBounds_pure i s hinv) _
    · by_cases h3 : cur = GstState.playing
      · simp [h1, h2, h3]
        exact effBounds_mono (effBounds_pure i s hinv) _
      · by_cases h4 : s.playPending = true
        · simp [h1, h2, h3, h4]
          exact effBounds_mono (effBounds_pure i s hinv) _
        · refine ⟨?_, ?_, ?_, ?_, ?_⟩ <;>
            simp [h1, h2, h3, h4, Eff.pure, Eff.andThen, sendPlaybackErrorE,
              tearDownTransientE, sendPlaybackStoppedE, tearDownCore,
              termPsi, termPhi, hid] <;>
            (try split_ifs) <;> (try simp_all) <;> omega

theorem effBounds_playE (i : Nat) (s : PlayerState) (id : Nat) (gr : StateRet)
    (cur : GstState) (ub so : Bool) (hi : 1 ≤ i) (hinv : s.currentId ≤ s.gId) :
    EffBounds i (if id = i then 1 else 0) s (playE s id gr cur ub so).2 := by
  unfold playE
  by_cases h1 : s.sourceSet = true
  case neg =>
    simp [h1]
    exact effBounds_mono (effBounds_pure i s hinv) _
  case pos =>
    simp only [h1, not_true, if_neg, if_false, Bool.not_eq_true]
    have h := effBounds_handlePlay i s id gr cur ub so hi hinv
    exact ⟨h.1, h.2.1, h.2.2.1, h.2.2.2.1, h.2.2.2.2⟩

theorem effBounds_stopSuccess (i : Nat) (s : PlayerState) (hi : 1 ≤ i)
    (hinv : s.currentId ≤ s.gId) :
    EffBounds i 0 s
      ((({ Eff.pure s with ops := [EOp.setState GstState.null] } : Eff).andThen fun s0 =>
          if s0.playPending then sendPlaybackStartedE s0
          else if s0.resumePending then sendPlaybackResumedE s0
          else Eff.pure s0).andThen sendPlaybackStoppedE) := by
  have h0 : EffBounds i 0 s
      ({ Eff.pure s with ops := [EOp.setState GstState.null] } : Eff) :=
    effBounds_frame i s s _ _ _ _ rfl rfl rfl hinv rfl rfl rfl
  have h1 := @effBounds_andThen i 0 0 s
    ({ Eff.pure s with ops := [EOp.setState GstState.null] } : Eff)
    (fun s0 =>
      if s0.playPending then sendPlaybackStartedE s0
      else if s0.resumePending then sendPlaybackResumedE s0
      else Eff.pure s0)
    h0 (by
      change EffBounds i 0 _
        (if s.playPending = true then sendPlaybackStartedE s
         else if s.resumePending = true then sendPlaybackResumedE s else Eff.pure s)
      split_ifs
      · exact effBounds_sendStarted i _ hi hinv
      · exact effBounds_sendResumed i _ hinv
      · exact effBounds_pure i _ hinv)
  exact @effBounds_andThen i 0 0 s _ _ h1 (effBounds_sendStopped i _ hi h1.1)

theorem effBounds_handleStop (i : Nat) (s : PlayerState) (id : Nat) (gr : StateRet)
    (cur pend : GstState) (so : Bool) (hi : 1 ≤ i) (hinv : s.currentId ≤ s.gId) :
    EffBounds i 0 s (handleStopE s id gr cur pend so).2 := by
  unfold handleStopE
  split_ifs <;>
    first
    | exact effBounds_pure i s hinv
    | exact effBounds_frame i s s _ _ _ _ rfl rfl rfl hinv rfl rfl rfl
    | exact effBounds_stopSuccess i s hi hinv

theorem effBounds_handlePause (i : Nat) (s : PlayerState) (id : Nat) (gr : StateRet)
    (cur : GstState) (so : Bool) (hinv : s.currentId ≤ s.gId) :
    EffBounds i 0 s (handlePauseE s id gr cur so).2 := by
  unfold handlePauseE
  split_ifs <;> exact effBounds_frame i s _ _ _ _ _ rfl rfl rfl hinv rfl rfl rfl

theorem effBounds_handleResume (i : Nat) (s : PlayerState) (id : Nat) (gr : StateRet)
    (cur : GstState) (so : Bool) (hinv : s.currentId ≤ s.gId) :
    EffBounds i 0 s (handleResumeE s id gr cur so).2 := by
  unfold handleResumeE
  split_ifs <;> exact effBounds_frame i s _ _ _ _ _ rfl rfl rfl hinv rfl rfl rfl

theorem effBounds_getOffset (i : Nat) (s : PlayerState) (id : Nat) (gr : StateRet)
    (st : GstState) (posNs : Option Nat) (hinv : s.currentId ≤ s.gId) :
    EffBounds i 0 s (handleGetOffsetE s id gr st posNs).2 := by
  unfold handleGetOffsetE
  rcases posNs with _ | ns <;> split_ifs <;>
    exact effBounds_frame i s _ _ _ _ _ rfl rfl rfl hinv rfl rfl rfl

theorem effBounds_setOffset (i : Nat) (s : PlayerState) (id : Nat) (ms : Nat)
    (hinv : s.currentId ≤ s.gId) :
    EffBounds i 0 s (handleSetOffsetE s id ms).2 := by
  unfold handleSetOffsetE
  split_ifs <;> exact effBounds_frame i s _ _ _ _ _ rfl rfl rfl hinv rfl rfl rfl

theorem effBounds_setVolume (i : Nat) (s : PlayerState) (v : Int)
    (hinv : s.currentId ≤ s.gId) :
    EffBounds i 0 s (handleSetVolumeE s v).2 := by
  unfold handleSetVolumeE Normalizer.create
  norm_num
  split_ifs <;> exact effBounds_frame i s _ _ _ _ _ rfl rfl rfl hinv rfl rfl rfl

theorem effBounds_adjustVolume (i : Nat) (s : PlayerState) (d : Int)
    (hinv : s.currentId ≤ s.gId) :
    EffBounds i 0 s (handleAdjustVolumeE s d).2 := by
  unfold handleAdjustVolumeE Normalizer.create
  norm_num
  split_ifs <;> exact effBounds_frame i s _ _ _ _ _ rfl rfl rfl hinv rfl rfl rfl

theorem effBounds_setMute (i : Nat) (s : PlayerState) (m : Bool)
    (hinv : s.currentId ≤ s.gId) :
    EffBounds i 0 s (handleSetMuteE s m).2 := by
  unfold handleSetMuteE
  split_ifs <;> exact effBounds_frame i s _ _ _ _ _ rfl rfl rfl hinv rfl rfl rfl

theorem effBounds_getSpeakerSettings (i : Nat) (s : PlayerState)
    (hinv : s.currentId ≤ s.gId) :
    EffBounds i 0 s (handleGetSpeakerSettingsE s).2 := by
  unfold handleGetSpeakerSettingsE Normalizer.create
  norm_num
  split_ifs <;> exact effBounds_frame i s _ _ _ _ _ rfl rfl rfl hinv rfl rfl rfl

theorem effBounds_busError (i : Nat) (s : PlayerState) (ty : ErrorType) (hi : 1 ≤ i) :
    EffBounds i 0 s (handleBusErrorE s ty) := by
  have h := effBounds_sendError i ty s hi
  exact ⟨h.1, h.2.1, h.2.2.1, h.2.2.2.1, h.2.2.2.2⟩

theorem effBounds_busTag (i : Nat) (s : PlayerState) (tm : List (String × List GVal))
    (hinv : s.currentId ≤ s.gId) :
    EffBounds i 0 s (handleBusTagE s tm) :=
  effBounds_sendTags i (collectTags tm) s hinv

theorem effBounds_crashFlag {i b : Nat} {s : PlayerState} {e : Eff}
    (h : EffBounds i b s e) (c : Bool) : EffBounds i b s { e with crashed := c } := h

theorem effBounds_opMaybeError (i : Nat) (s : PlayerState) (op : EOp) (okF : Bool)
    (hi : 1 ≤ i) (hinv : s.currentId ≤ s.gId) :
    EffBounds i 0 s
      (if okF then ({ Eff.pure s with ops := [op] } : Eff)
       else ({ Eff.pure s with ops := [op] } : Eff).andThen
         (sendPlaybackErrorE ErrorType.internalDeviceError)) := by
  cases okF with
  | true => exact effBounds_frame i s s _ _ _ _ rfl rfl rfl hinv rfl rfl rfl
  | false =>
    exact @effBounds_andThen i 0 0 s _ _
      (effBounds_frame i s s _ _ _ _ rfl rfl rfl hinv rfl rfl rfl)
      (effBounds_sendError i ErrorType.internalDeviceError _ hi)

theorem effBounds_busEos (i : Nat) (s : PlayerState) (fp eo hm no po : Bool)
    (hi : 1 ≤ i) (hinv : s.currentId ≤ s.gId) :
    EffBounds i 0 s (handleBusEosE s fp eo hm no po) := by
  cases fp with
  | false => exact effBounds_pure i s hinv
  | true =>
    unfold handleBusEosE
    rw [if_neg (by simp)]
    by_cases hsrc : s.sourceSet = true
    case neg =>
      rw [if_pos hsrc]
      exact effBounds_crashFlag (effBounds_pure i s hinv) true
    case pos =>
      rw [if_neg (by simp [hsrc])]
      cases eo with
      | true =>
        rw [if_neg (by simp [Eff.pure, hsrc])]
        cases hm with
        | true =>
          have b2 : EffBounds i 0 s
              ({ Eff.pure s with
                calls := [ACall.handleEndOfStream] ++ [ACall.hasAdditionalData] } : Eff) :=
            effBounds_frame i s s _ _ _ _ rfl rfl rfl hinv rfl rfl rfl
          have b3 := @effBounds_andThen i 0 0 s
            ({ Eff.pure s with
              calls := [ACall.handleEndOfStream] ++ [ACall.hasAdditionalData] } : Eff)
            (fun s2 =>
              if no then ({ Eff.pure s2 with ops := [EOp.setState GstState.null] } : Eff)
              else ({ Eff.pure s2 with ops := [EOp.setState GstState.null] } : Eff).andThen
                (sendPlaybackErrorE ErrorType.internalDeviceError))
            b2 (effBounds_opMaybeError i s (EOp.setState GstState.null) no hi hinv)
          exact @effBounds_andThen i 0 0 s _
            (fun s3 =>
              if po then ({ Eff.pure s3 with ops := [EOp.setState GstState.playing] } : Eff)
              else ({ Eff.pure s3 with ops := [EOp.setState GstState.playing] } : Eff).andThen
                (sendPlaybackErrorE ErrorType.internalDeviceError))
            b3 (effBounds_opMaybeError i _ (EOp.setState GstState.playing) po hi b3.1)
        | false =>
          have b2 : EffBounds i 0 s
              ({ Eff.pure s with
                calls := [ACall.handleEndOfStream] ++ [ACall.hasAdditionalData] } : Eff) :=
            effBounds_frame i s s _ _ _ _ rfl rfl rfl hinv rfl rfl rfl
          exact @effBounds_andThen i 0 0 s _ sendPlaybackFinishedE b2
            (effBounds_sendFinished i _ hi b2.1)
      | false =>
        have b1 : EffBounds i 0 s
            (({ Eff.pure s with calls := [ACall.handleEndOfStream] } : Eff).andThen
              (sendPlaybackErrorE ErrorType.internalDeviceError)) :=
          @effBounds_andThen i 0 0 s _ _
            (effBounds_frame i s s _ _ _ _ rfl rfl rfl hinv rfl rfl rfl)
            (effBounds_sendError i ErrorType.internalDeviceError _ hi)
        rw [if_pos (by simp [sendPlaybackErrorE, tearDownTransientE, tearDownCore,
          Eff.andThen])]
        exact effBounds_crashFlag b1 true

theorem effBounds_busStateChanged (i : Nat) (s : PlayerState) (fp : Bool)
    (o n pd : GstState) (bq : Option Bool) (hi : 1 ≤ i) (hinv : s.currentId ≤ s.gId) :
    EffBounds i 0 s (handleBusStateChangedE s fp o n pd bq) := by
  unfold handleBusStateChangedE
  split_ifs <;>
    first
    | exact effBounds_pure i s hinv
    | exact effBounds_frame i s s _ _ _ _ rfl rfl rfl hinv rfl rfl rfl
    | exact effBounds_sendStarted i s hi hinv
    | exact effBounds_sendUnderrun i s hinv
    | exact effBounds_sendStopped i s hi hinv
    | exact @effBounds_andThen i 0 0 s _ _ (effBounds_sendStarted i s hi hinv)
        (effBounds_sendPaused i _ (effBounds_sendStarted i s hi hinv).1)
    | exact @effBounds_andThen i 0 0 s _ _ (effBounds_sendResumed i s hinv)
        (effBounds_sendPaused i _ (effBounds_sendResumed i s hinv).1)
    | exact @effBounds_andThen i 0 0 s _ _ (effBounds_pure i s hinv)
        (effBounds_sendPaused i _ hinv)
    | exact @effBounds_andThen i 0 0 s _ _ (effBounds_sendRefilled i s hinv)
        (effBounds_frame i _ _ _ _ _ _ rfl rfl rfl (effBounds_sendRefilled i s hinv).1
          rfl rfl rfl)
    | exact @effBounds_andThen i 0 0 s _ _ (effBounds_sendResumed i s hinv)
        (effBounds_frame i _ _ _ _ _ _ rfl rfl rfl (effBounds_sendResumed i s hinv).1
          rfl rfl rfl)
    | exact @effBounds_andThen i 0 0 s _ _ (effBounds_sendPaused i s hinv)
        (effBounds_frame i _ _ _ _ _ _ rfl rfl rfl (effBounds_sendPaused i s hinv).1
          rfl rfl rfl)

theorem effBounds_busBuffering (i : Nat) (s : PlayerState) (pct : Nat) (pk : Bool)
    (sq : Option Bool) (sk pl : Bool) (hi : 1 ≤ i) (hinv : s.currentId ≤ s.gId) :
    EffBounds i 0 s (handleBusBufferingE s pct pk sq sk pl) := by
  rcases hsp : s.seekPoint with _ | ms <;> rcases sq with _ | b <;>
    refine ⟨?_, ?_, ?_, ?_, ?_⟩ <;>
    simp [handleBusBufferingE, seekE, hsp, sendPlaybackErrorE, tearDownTransientE,
      sendPlaybackStoppedE, tearDownCore, Eff.andThen, Eff.pure, termPsi, termPhi] <;>
    (try split_ifs) <;> (try simp_all) <;> (try split_ifs) <;> omega

theorem step_bounds (i : Nat) (s : PlayerState) (m : Msg) (hi : 1 ≤ i)
    (hinv : s.currentId ≤ s.gId) :
    EffBounds i (if isPlayMsg i m then 1 else 0) s (step s m) := by
  cases m with
  | setObserver p => exact effBounds_mono (effBounds_setObserver i s p hinv) _
  | setSource ok => exact effBounds_mono (effBounds_setSource i s ok hi hinv) _
  | play id gr cur ub so =>
    have h := effBounds_playE i s id gr cur ub so hi hinv
    simpa only [step, isPlayMsg, beq_iff_eq] using h
  | stop id gr cur pend so =>
    exact effBounds_mono (effBounds_handleStop i s id gr cur pend so hi hinv) _
  | pause id gr cur so => exact effBounds_mono (effBounds_handlePause i s id gr cur so hinv) _
  | resume id gr cur so =>
    exact effBounds_mono (effBounds_handleResume i s id gr cur so hinv) _
  | getOffset id gr st pos =>
    exact effBounds_mono (effBounds_getOffset i s id gr st pos hinv) _
  | setOffset id ms => exact effBounds_mono (effBounds_setOffset i s id ms hinv) _
  | setVolume v => exact effBounds_mono (effBounds_setVolume i s v hinv) _
  | adjustVolume d => exact effBounds_mono (effBounds_adjustVolume i s d hinv) _
  | setMute b => exact effBounds_mono (effBounds_setMute i s b hinv) _
  | getSpeakerSettings => exact effBounds_mono (effBounds_getSpeakerSettings i s hinv) _
  | busEos fp eo hm no po => exact effBounds_mono (effBounds_busEos i s fp eo hm no po hi hinv) _
  | busError ty => exact effBounds_mono (effBounds_busError i s ty hi) _
  | busStateChanged fp o n pd bq =>
    exact effBounds_mono (effBounds_busStateChanged i s fp o n pd bq hi hinv) _
  | busBuffering pct pk sq sk pl =>
    exact effBounds_mono (effBounds_busBuffering i s pct pk sq sk pl hi hinv) _
  | busTag tm => exact effBounds_mono (effBounds_busTag i s tm hinv) _

theorem run_bounds (i : Nat) (hi : 1 ≤ i) (ms : List Msg) :
    ∀ s : PlayerState, s.currentId ≤ s.gId →
      countEv (Event.stopped i) (run s ms) ≤ termPsi i s ∧
      countEv (Event.finished i) (run s ms) ≤ termPsi i s ∧
      countEv (Event.started i) (run s ms) ≤ termPhi i s + countPlayMsgs i ms := by
  induction ms with
  | nil =>
    intro s _
    simp [run, countPlayMsgs]
  | cons m ms ih =>
    intro s hs
    obtain ⟨a, g, p, q, r⟩ := step_bounds i s m hi hs
    have hcount : countPlayMsgs i (m :: ms) =
        (if isPlayMsg i m then 1 else 0) + countPlayMsgs i ms := rfl
    by_cases hcr : (step s m).crashed = true
    · have hrun : run s (m :: ms) = (step s m).evs := by
        simp [run, hcr]
      rw [hrun, hcount]
      refine ⟨by omega, by omega, by omega⟩
    · have hrun : run s (m :: ms) = (step s m).evs ++ run (step s m).s ms := by
        simp [run, hcr]
      obtain ⟨p2, q2, r2⟩ := ih (step s m).s a
      rw [hrun, hcount]
      refine ⟨?_, ?_, ?_⟩ <;> simp only [countEv_append] <;> omega

/-- C3 counterexample: the concrete run `setObserver; setSource (id 1);
play(1); →PLAYING; pause(1); →PAUSED; play(1); →PLAYING` — a real behaviour
of the code, since `handlePlay` accepts a second play while paused and
clears `m_playbackStartedSent` — emits `onPlaybackStarted(1)` twice. -/
theorem c3_counterexample :
    countEv (Event.started 1) (run initialState doubleStartTrace) = 2 := by
  decide

/-- C3 (amended): for every minted source id `i ≥ 1` and every sequence of
commands and bus messages, `onPlaybackFinished(i)` and
`onPlaybackStopped(i)` are emitted at most once; `onPlaybackStarted(i)` may
be re-armed by each `play(i)` command (which clears the started flag), and
is emitted at most `1 + (number of play(i) commands)` times. -/
theorem c3_amended_theorem (ms : List Msg) (i : Nat) (hi : 1 ≤ i) :
    countEv (Event.finished i) (run initialState ms) ≤ 1 ∧
    countEv (Event.stopped i) (run initialState ms) ≤ 1 ∧
    countEv (Event.started i) (run initialState ms) ≤ 1 + countPlayMsgs i ms := by
  obtain ⟨p, q, r⟩ := run_bounds i hi ms initialState (by simp [initialState])
  have h1 : termPsi i initialState ≤ 1 := by
    simp only [termPsi]
    split_ifs <;> omega
  have h2 : termPhi i initialState ≤ 1 := by
    simp only [termPhi, initialState]
    split_ifs <;> omega
  exact ⟨le_trans q h1, le_trans p h1, by omega⟩

/-- C3 witness: the amended bound applied to the double-start trace, which
contains two `play(1)` commands. -/
theorem c3_witness :
    countEv (Event.stopped 1) (run initialState doubleStartTrace) ≤ 1 ∧
    countEv (Event.started 1) (run initialState doubleStartTrace) ≤
      1 + countPlayMsgs 1 doubleStartTrace :=
  ⟨(c3_amended_theorem doubleStartTrace 1 (by decide)).2.1,
   (c3_amended_theorem doubleStartTrace 1 (by decide)).2.2⟩

end MediaPlayerModel
